import Mathlib

/-!
Shallow embedding of `gbp/command_wrappers.py` (git-buildpackage command
wrapper module) and proofs about its observable behaviour.

The module wraps external process invocation.  The process-launch boundary
(`subprocess.call` / `subprocess.Popen`) is modelled by an explicit
`CallResult` value supplied to each operation: either the child ran and
exited with an integer code (negative codes denote termination by a
signal, as in Python's `subprocess.call`), or the launch failed with an
OS-level error carrying a message (Python `OSError`).  Logging
(`log.debug` / `log.err`) is modelled as an explicit list of emitted
entries.  Raising is modelled with `Except`.
-/

/-- A log line emitted through the logging collaborator: either the
debug channel (`log.debug`) or the error channel (`log.err`). -/
inductive LogEntry where
  | debug (msg : String)
  | err (msg : String)
deriving Repr, DecidableEq

/-- Whether a log entry was emitted on the error channel. -/
def LogEntry.isErr : LogEntry → Bool
  | .err _ => true
  | .debug _ => false

/-- The messages of the error-channel entries of a log. -/
def errMsgs (l : List LogEntry) : List String :=
  l.filterMap (fun e => match e with | .err m => some m | .debug _ => none)

/-- The two exception kinds of the module: `CommandExecFailed` (raised by
the invocation layer, optionally with a message payload) and `GbpError`
(the application error type from `errors`, always with a message). -/
inductive CmdError where
  | commandExecFailed (payload : Option String)
  | gbpError (msg : String)
deriving Repr, DecidableEq

/-- Result of the OS-level process-launch boundary (`subprocess.call`):
either the child process ran and exited with `code` (negative = killed by
signal `-code`), or the launch itself failed with an `OSError` whose
string rendering is `msg`. -/
inductive CallResult where
  | exited (code : Int)
  | osError (msg : String)
deriving Repr, DecidableEq

/-- State of a `Command` instance (the fields set by `Command.__init__`
that the claims observe; `cwd`/`env` are pass-through launch options and
are not modelled further). -/
structure Command where
  cmd : String
  args : List String
  run_error : String
  shell : Bool
  retcode : Int
deriving Repr, DecidableEq

/-- `Command.__init__(cmd, args, shell, ...)`: stores the program, the
fixed argument list and the shell flag, precomputes
`run_error = "Couldn't run '<cmd> <args...>'"`, and initialises
`retcode` to `1`. -/
def Command.init (cmd : String) (args : List String) (shell : Bool) : Command :=
  { cmd := cmd
    args := args
    run_error := "Couldn\x27t run \x27" ++ String.intercalate " " (cmd :: args) ++ "\x27"
    shell := shell
    retcode := 1 }

/-- What `Command.__call` hands to `subprocess.call`: in exec mode the
argument vector `[cmd] + self.args + args`, in shell mode that vector
joined into one space-separated string. -/
inductive Dispatched where
  | execv (argv : List String)
  | shellStr (line : String)
deriving Repr, DecidableEq

/-- The effective command built by `Command.__call`:
`cmd = [self.cmd] + self.args + args`, joined with spaces when
`self.shell` is set. -/
def Command.buildCmd (c : Command) (args : List String) : Dispatched :=
  let cmd := [c.cmd] ++ c.args ++ args
  if c.shell then .shellStr (String.intercalate " " cmd) else .execv cmd

/-- The pre-invocation trace line of `Command.__call`
(`log.debug("%s %s %s" % (self.cmd, self.args, args))`); the Python list
`repr` is rendered with `toString`. -/
def Command.debugLine (c : Command) (args : List String) : String :=
  c.cmd ++ " " ++ toString c.args ++ " " ++ toString args

/-- The body of `Command.__run`'s `try`/`except`: from the launch result,
the retcode `__run` continues with and the error lines logged so far.
A negative code logs the terminated-by-signal line, a positive code logs
the returned-code line, an `OSError` logs the execution-failed line and
forces retcode `1`. -/
def runRetcodeLogs (c : Command) (res : CallResult) : Int × List LogEntry :=
  match res with
  | .exited retcode =>
      if retcode < 0 then
        (retcode, [.err (c.cmd ++ " was terminated by signal " ++ toString (-retcode))])
      else if retcode > 0 then
        (retcode, [.err (c.cmd ++ " returned " ++ toString retcode)])
      else
        (retcode, [])
  | .osError e =>
      (1, [.err ("Execution failed: " ++ e)])

/-- `Command.__run(args)` given launch result `res`: emits the debug
trace, classifies the result, logs `self.run_error` additionally when the
retcode is nonzero, stores the retcode in `self.retcode` and returns it.
Result: (updated instance, returned retcode, emitted log). -/
def Command.run (c : Command) (args : List String) (res : CallResult) :
    Command × Int × List LogEntry :=
  let rl := runRetcodeLogs c res
  let retcode := rl.1
  let logs := [LogEntry.debug (c.debugLine args)] ++ rl.2 ++
      (if retcode = 0 then [] else [LogEntry.err c.run_error])
  ({ c with retcode := retcode }, retcode, logs)

/-- `Command.__call__(args)` (the strict invocation form) given launch
result `res`: runs `__run` and raises a bare `CommandExecFailed` (no
payload) exactly when `__run` returned nonzero.
Result: (updated instance, outcome, emitted log). -/
def Command.strictCall (c : Command) (args : List String) (res : CallResult) :
    Command × Except CmdError Unit × List LogEntry :=
  let r := c.run args res
  (r.1, if r.2.1 = 0 then .ok () else .error (.commandExecFailed none), r.2.2)

/-- `Command.call(args)` (the lenient invocation form) given launch
result `res`: returns the raw exit code; only an `OSError` from the
launch is converted into `CommandExecFailed("Execution failed: <e>")`.
No error line is logged and `self.retcode` is not touched.
Result: (updated instance, outcome, emitted log). -/
def Command.call (c : Command) (args : List String) (res : CallResult) :
    Command × Except CmdError Int × List LogEntry :=
  match res with
  | .exited n => (c, .ok n, [.debug (c.debugLine args)])
  | .osError e =>
      (c, .error (.commandExecFailed (some ("Execution failed: " ++ e))),
        [.debug (c.debugLine args)])

/-- The retcode `Command.__run` derives from a launch result: the exit
code itself, or `1` after an `OSError`. -/
def CallResult.retcodeOf : CallResult → Int
  | .exited n => n
  | .osError _ => 1

/-! ### RunAtCommand: process working directory model -/

/-- Process-global state observed by `RunAtCommand`: the current working
directory of the invoking process. -/
structure ProcState where
  cwd : String
deriving Repr, DecidableEq

/-- Splitting a character list at every occurrence of a separator,
keeping empty pieces — the semantics of Python's `str.split(sep)`. -/
def splitOnChar (sep : Char) : List Char → List (List Char)
  | [] => [[]]
  | c :: rest =>
      match splitOnChar sep rest with
      | [] => [[]]
      | r :: rs => if c = sep then [] :: r :: rs else (c :: r) :: rs

/-- Python's `s.split(sep)` for a one-character separator: splits at
every occurrence, keeping empty pieces (`''.split(sep) == ['']`). -/
def pySplit (s : String) (sep : Char) : List String :=
  (splitOnChar sep s.data).map String.mk

/-- Whether `pre` is a prefix of `s` (character-wise). -/
def strStartsWith (s pre : String) : Bool := List.isPrefixOf pre.data s.data

/-- Whether a path string is absolute (POSIX: starts with a slash). -/
def isAbs (p : String) : Bool := strStartsWith p "/"

/-- `os.chdir(d)` as a state update: an absolute path replaces the
working directory, a relative one is resolved against it. -/
def chdir (st : ProcState) (d : String) : ProcState :=
  if isAbs d then { cwd := d } else { cwd := st.cwd ++ "/" ++ d }

/-- `os.path.abspath(p)` relative to the process state: `"."` denotes the
current working directory, an absolute path stands as is, a relative one
is joined onto the working directory. -/
def abspath (st : ProcState) (p : String) : String :=
  if p = "." then st.cwd else if isAbs p then p else st.cwd ++ "/" ++ p

/-- `RunAtCommand.__call__(dir, *args)`: saves
`curdir = os.path.abspath(os.path.curdir)`, changes into `dir`, performs
the wrapped `Command.__call__` (whose outcome is the parameter
`wrapped`), and changes back to `curdir` — on the success path inside the
`try`, on the raising path inside the `except` handler before
re-raising.  Result: (process state after the call, outcome). -/
def runAtCall (st : ProcState) (dir : String) (wrapped : Except CmdError Unit) :
    ProcState × Except CmdError Unit :=
  let curdir := abspath st "."
  let st1 := chdir st dir
  match wrapped with
  | .ok _ => (chdir st1 curdir, .ok ())
  | .error e => (chdir st1 curdir, .error e)

/-! ### PristineTar -/

/-- The class attribute `PristineTar.cmd`. -/
def pristineTarCmd : String := "/usr/bin/pristine-tar"

/-- `PristineTar.__init__`: given the result of `os.access(cmd, X_OK)`
for each path (the parameter `access`), raises
`GbpError("<cmd> not found - cannot use pristine-tar")` when the backing
executable is not accessible/executable, otherwise constructs the
underlying `Command`.  The second component records the child processes
launched during construction (none ever are). -/
def pristineTarInit (access : String → Bool) :
    Except CmdError Command × List (List String) :=
  if !(access pristineTarCmd) then
    (.error (.gbpError (pristineTarCmd ++ " not found - cannot use pristine-tar")), [])
  else
    (.ok (Command.init pristineTarCmd [] false), [])

/-! ### GitTag -/

/-- Python truthiness of an optional string (`if self.keyid:` /
`if commit:`): `None` and the empty string are falsy. -/
def optStrTruthy : Option String → Bool
  | none => false
  | some s => !(s == "")

/-- The signing options computed by `GitTag.__call__`: with `sign_tag`
set, `['-u', keyid]` when a (truthy) key id is configured else `['-s']`;
without `sign_tag`, no options at all. -/
def gitTagSignOpts (sign_tag : Bool) (keyid : Option String) : List String :=
  if sign_tag then
    if optStrTruthy keyid then ["-u", keyid.getD ""] else ["-s"]
  else []

/-- The message-template rendering `msg % locals()` of
`GitTag.__call__`, modelled for its one used key: the occurrences of
`"%(version)s"` are replaced by the version string. -/
def renderTagMsg (msg version : String) : String :=
  msg.replace "%(version)s" version

/-- The full argument vector `GitTag.__call__` dispatches:
`GitCommand.__init__(self, 'git', ['tag'])` makes the fixed prefix
`git tag`, then `cmd = sign_opts + ['-m', msg % locals(), version]`
plus the commit when one is (truthily) given. -/
def gitTagArgv (sign_tag : Bool) (keyid : Option String)
    (version msg : String) (commit : Option String) : List String :=
  let sign_opts := gitTagSignOpts sign_tag keyid
  let cmd := sign_opts ++ ["-m", renderTagMsg msg version, version]
  let cmd := if optStrTruthy commit then cmd ++ [commit.getD ""] else cmd
  ["git", "tag"] ++ cmd

/-! ### copy_from and path normalization -/

/-- One step of the component loop of `posixpath.normpath`: skip empty
and `"."` components, append a component unless it is a poppable `".."`,
pop on a `".."` that cancels a previous component. -/
def normpathStep (slashes : Nat) (newComps : List String) (comp : String) :
    List String :=
  if comp == "" || comp == "." then newComps
  else if comp != ".." || (slashes == 0 && newComps.isEmpty) ||
      newComps.getLast? == some ".." then
    newComps ++ [comp]
  else if !newComps.isEmpty then newComps.dropLast
  else newComps

/-- The count of initial slashes kept by `posixpath.normpath`: two are
preserved (POSIX special case), one or three-plus collapse to one. -/
def initialSlashes (path : String) : Nat :=
  if strStartsWith path "/" then
    if strStartsWith path "//" && !(strStartsWith path "///") then 2 else 1
  else 0

/-- `os.path.normpath` (POSIX flavour, as in the Python 2 stdlib the
module runs on): empty path becomes `"."`, components are split on
`"/"`, empty and `"."` components are collapsed, `".."` cancels where
possible, and the result falls back to `"."` when nothing is left. -/
def normpath (path : String) : String :=
  if path = "" then "."
  else
    let slashes := initialSlashes path
    let comps := pySplit path '/'
    let newComps := comps.foldl (normpathStep slashes) []
    let joined := String.intercalate "/" newComps
    let p := String.mk (List.replicate slashes '/') ++ joined
    if p = "" then "." else p

/-- The list comprehension of `copy_from`'s return:
`[ os.path.normpath(f) for f in files if files ]` over
`files = output.split('\n')`.  Note the comprehension's condition tests
the whole list `files` (which is always nonempty, hence truthy), not the
element `f`. -/
def copyFromParse (output : String) : List String :=
  let files := pySplit output '\n'
  (files.filter (fun _ => !files.isEmpty)).map normpath

/-- What the two-process pipeline of `copy_from` did, as observed at the
Python level: an `OSError` or `ValueError` escaped the `try` block while
launching/communicating, or both processes ran, the consumer produced
`output` on its captured standard output, and the processes exited with
`exit1`/`exit2`. -/
inductive PipelineBehavior where
  | launchError (oserr : String)
  | valueError (verr : String)
  | ran (output : String) (exit1 exit2 : Int)
deriving Repr, DecidableEq

/-- The producer argument vector of `copy_from`:
`["tar"] + exclude + ["-cSpf", "-", "."]` with one
`--exclude=<filter>` per filter. -/
def copyFromProducerArgv (filters : List String) : List String :=
  ["tar"] ++ filters.map (fun f => "--exclude=" ++ f) ++ ["-cSpf", "-", "."]

/-- The consumer argument vector of `copy_from`. -/
def copyFromConsumerArgv : List String := ["tar", "-xvSpf", "-"]

/-- `copy_from(orig_dir, filters)` given pipeline behaviour `beh`: an
`OSError` or `ValueError` raises `GbpError("Cannot copy files: <err>")`;
a nonzero exit of either process raises
`GbpError("Cannot copy files, pipe failed.")`; otherwise the captured
output is parsed into the returned path list. -/
def copy_from (beh : PipelineBehavior) : Except CmdError (List String) :=
  match beh with
  | .launchError e => .error (.gbpError ("Cannot copy files: " ++ e))
  | .valueError e => .error (.gbpError ("Cannot copy files: " ++ e))
  | .ran output exit1 exit2 =>
      if exit1 ≠ 0 ∨ exit2 ≠ 0 then
        .error (.gbpError "Cannot copy files, pipe failed.")
      else
        .ok (copyFromParse output)

/-! ### Helper lemmas -/

@[simp]
lemma errMsgs_nil : errMsgs [] = [] := rfl

@[simp]
lemma errMsgs_debug (m : String) (l : List LogEntry) :
    errMsgs (.debug m :: l) = errMsgs l := rfl

@[simp]
lemma errMsgs_err (m : String) (l : List LogEntry) :
    errMsgs (.err m :: l) = m :: errMsgs l := rfl

@[simp]
lemma errMsgs_append (l1 l2 : List LogEntry) :
    errMsgs (l1 ++ l2) = errMsgs l1 ++ errMsgs l2 := by
  simp [errMsgs, List.filterMap_append]

lemma runRetcodeLogs_exited_fst (c : Command) (n : Int) :
    (runRetcodeLogs c (.exited n)).1 = n := by
  rcases lt_trichotomy n 0 with h | h | h
  · simp [runRetcodeLogs, h]
  · subst h; simp [runRetcodeLogs]
  · simp [runRetcodeLogs, h, lt_asymm h]

/-! ### Claim theorems -/

/-- Claim C1: strict invocation (`Command.__call__`) raises a bare
`CommandExecFailed` (no payload) exactly when the child's exit status is
nonzero: on exit `0` it returns successfully and no error-level log line
is emitted; on exit `n > 0` it raises, the error log is nonempty and
contains a line mentioning `n`; on termination by a signal (negative
status) it raises and an error line mentioning the signal number is
emitted. -/
theorem strict_raises_iff_nonzero (c : Command) (args : List String) (n : Int) :
    ((c.strictCall args (.exited n)).2.1 = .error (.commandExecFailed none) ↔ n ≠ 0) ∧
    ((c.strictCall args (.exited n)).2.1 = .ok () ↔ n = 0) ∧
    (errMsgs (c.strictCall args (.exited n)).2.2 = [] ↔ n = 0) ∧
    (0 < n → (c.cmd ++ " returned " ++ toString n) ∈
      errMsgs (c.strictCall args (.exited n)).2.2) ∧
    (n < 0 → (c.cmd ++ " was terminated by signal " ++ toString (-n)) ∈
      errMsgs (c.strictCall args (.exited n)).2.2) := by
  rcases lt_trichotomy n 0 with h | h | h
  · simp [Command.strictCall, Command.run, runRetcodeLogs, h, h.ne, lt_asymm h]
  · subst h
    simp [Command.strictCall, Command.run, runRetcodeLogs]
  · simp [Command.strictCall, Command.run, runRetcodeLogs, h, h.ne', lt_asymm h]

/-- Witness for C1: with exit status 5 the strict form raises the bare
`CommandExecFailed` and logs an error line mentioning 5. -/
theorem strict_raises_iff_nonzero_witness :
    ((Command.init "tar" ["-x"] false).strictCall ["f"] (.exited 5)).2.1 =
      .error (.commandExecFailed none) ∧
    ((Command.init "tar" ["-x"] false).cmd ++ " returned " ++ toString (5 : Int)) ∈
      errMsgs ((Command.init "tar" ["-x"] false).strictCall ["f"] (.exited 5)).2.2 :=
  ⟨(strict_raises_iff_nonzero (Command.init "tar" ["-x"] false) ["f"] 5).1.mpr
      (by decide),
   (strict_raises_iff_nonzero (Command.init "tar" ["-x"] false) ["f"] 5).2.2.2.1
      (by decide)⟩

/-- Claim C2: lenient invocation (`Command.call`) returns the raw exit code
without raising and without emitting any error-level log line, for every
exit code; only an OS-level launch failure raises, as a
`CommandExecFailed` carrying `"Execution failed: "` plus the OS error
text. -/
theorem lenient_returns_code (c : Command) (args : List String) (n : Int) (e : String) :
    (0 ≤ n → (c.call args (.exited n)).2.1 = .ok n) ∧
    (∀ m : Int, (c.call args (.exited m)).2.1 = .ok m) ∧
    errMsgs (c.call args (.exited n)).2.2 = [] ∧
    errMsgs (c.call args (.osError e)).2.2 = [] ∧
    (c.call args (.osError e)).2.1 =
      .error (.commandExecFailed (some ("Execution failed: " ++ e))) :=
  ⟨fun _ => rfl, fun _ => rfl, rfl, rfl, rfl⟩

/-- Witness for C2: a child exiting 7 makes the lenient form return 7. -/
theorem lenient_returns_code_witness :
    ((Command.init "tar" [] false).call ["f"] (.exited 7)).2.1 = .ok 7 :=
  (lenient_returns_code (Command.init "tar" [] false) ["f"] 7 "E").1 (by decide)

/-- Claim C4: an invoker constructed with program `cmd` and fixed arguments
`fixed` dispatches, for per-call arguments `args`, exactly the vector
`[cmd] ++ fixed ++ args` — joined into one space-separated string in
shell mode. -/
theorem dispatch_exact_argv (cmd : String) (fixed : List String) (shell : Bool)
    (args : List String) :
    Command.buildCmd (Command.init cmd fixed shell) args =
      (if shell then
        Dispatched.shellStr (String.intercalate " " ([cmd] ++ fixed ++ args))
      else Dispatched.execv ([cmd] ++ fixed ++ args)) := by
  simp [Command.buildCmd, Command.init]

/-- Claim C9: a freshly constructed invoker's last-result field (`retcode`) is
initialised to `1`, a failure value, not `0`. -/
theorem fresh_retcode_is_one (cmd : String) (args : List String) (shell : Bool) :
    (Command.init cmd args shell).retcode = 1 ∧
    (Command.init cmd args shell).retcode ≠ 0 :=
  ⟨rfl, by simp [Command.init]⟩

/-- Claim C3: evaluation of `copy_from`'s output parsing at a typical captured
consumer output ending in a newline.  The comprehension
`[ os.path.normpath(f) for f in files if files ]` filters on the always
truthy list `files` instead of the element `f`, so the empty final entry
survives and is normalised to `"."`: the returned list is
`["a.txt", "."]`, not `["a.txt"]` — empty entries are not filtered out
as the claim states. -/
theorem copy_from_keeps_empty_entry :
    copyFromParse "a.txt\n" = ["a.txt", "."] ∧
    copy_from (.ran "a.txt\n" 0 0) = .ok ["a.txt", "."] ∧
    "." ∈ copyFromParse "a.txt\n" := by
  refine ⟨by decide, rfl, by decide⟩

/-- Claim C5: a `RunAtCommand` call leaves the process working directory equal
to what it was before the call, both when the wrapped invocation
succeeds and when it raises, and on the raising path the error is
propagated unchanged after restoration. -/
theorem runAt_restores_cwd (st : ProcState) (dir : String)
    (wrapped : Except CmdError Unit) (h : isAbs st.cwd = true) :
    (runAtCall st dir wrapped).1 = st ∧
    (runAtCall st dir wrapped).2 = wrapped := by
  obtain ⟨cwd⟩ := st
  cases wrapped with
  | ok u => cases u; simp [runAtCall, abspath, chdir, h]
  | error e => simp [runAtCall, abspath, chdir, h]

/-- Witness for C5: from `/srv`, a raising wrapped call restores `/srv`
and re-raises. -/
theorem runAt_restores_cwd_witness :
    (runAtCall ⟨"/srv"⟩ "build" (.error (.commandExecFailed none))).1 = ⟨"/srv"⟩ ∧
    (runAtCall ⟨"/srv"⟩ "build" (.error (.commandExecFailed none))).2 =
      .error (.commandExecFailed none) :=
  runAt_restores_cwd ⟨"/srv"⟩ "build" (.error (.commandExecFailed none)) (by decide)

/-- Claim C6: every failure of `copy_from` — OS-level launch error, value
error, or a nonzero exit of either process — raises a single
copy-specific `GbpError`, and a path list is returned only when both
processes exited zero. -/
theorem copy_from_failure_collapse (beh : PipelineBehavior) :
    (∀ l, copy_from beh = .ok l →
      ∃ output, beh = .ran output 0 0 ∧ l = copyFromParse output) ∧
    (∀ e, beh = .launchError e →
      copy_from beh = .error (.gbpError ("Cannot copy files: " ++ e))) ∧
    (∀ e, beh = .valueError e →
      copy_from beh = .error (.gbpError ("Cannot copy files: " ++ e))) ∧
    (∀ output e1 e2, beh = .ran output e1 e2 → e1 ≠ 0 ∨ e2 ≠ 0 →
      copy_from beh = .error (.gbpError "Cannot copy files, pipe failed.")) := by
  refine ⟨?_, ?_, ?_, ?_⟩
  · intro l hl
    cases beh with
    | launchError e => simp [copy_from] at hl
    | valueError e => simp [copy_from] at hl
    | ran output e1 e2 =>
        by_cases h1 : e1 = 0
        · by_cases h2 : e2 = 0
          · subst h1; subst h2
            simp [copy_from] at hl
            exact ⟨output, rfl, hl.symm⟩
          · simp [copy_from, h2] at hl
        · simp [copy_from, h1] at hl
  · intro e he; subst he; rfl
  · intro e he; subst he; rfl
  · intro output e1 e2 hb hne
    subst hb
    show (if e1 ≠ 0 ∨ e2 ≠ 0 then _ else _) = _
    rw [if_pos hne]

/-- Witness for C6: a consumer exit of 3 collapses to the pipe-failed
`GbpError`; no list is observed. -/
theorem copy_from_failure_collapse_witness :
    copy_from (.ran "x\n" 0 3) =
      .error (.gbpError "Cannot copy files, pipe failed.") :=
  (copy_from_failure_collapse (.ran "x\n" 0 3)).2.2.2 "x\n" 0 3 rfl
    (Or.inr (by decide))

/-- Counterexample to C7 as stated: after a lenient-form invocation
(`Command.call`) whose child exited with code 5, the instance's
last-result field still holds its initial value 1, not 5 — the lenient
form does not overwrite the field. -/
theorem lenient_retcode_not_updated :
    ((Command.init "tar" [] false).call ["f"] (.exited 5)).1.retcode = 1 ∧
    ((Command.init "tar" [] false).call ["f"] (.exited 5)).1.retcode ≠ 5 := by
  refine ⟨rfl, by decide⟩

/-- Claim C7 (amended): the strict path (`Command.__run`, hence
`Command.__call__`) overwrites the last-result field with the retcode of
the most recent invocation (the exit code, or 1 after an OS launch
failure); the lenient form (`Command.call`) leaves the instance — and
hence the field — unchanged. -/
theorem retcode_tracks_strict_form_only (c : Command) (args : List String)
    (res : CallResult) :
    (c.run args res).1.retcode = res.retcodeOf ∧
    (c.strictCall args res).1.retcode = res.retcodeOf ∧
    (c.call args res).1 = c := by
  cases res with
  | exited n =>
      refine ⟨?_, ?_, rfl⟩ <;>
        simpa [Command.run, Command.strictCall, CallResult.retcodeOf] using
          runRetcodeLogs_exited_fst c n
  | osError e => exact ⟨rfl, rfl, rfl⟩

/-- Claim C8: constructing `PristineTar` when the backing executable is not
present and executable raises a `GbpError` (the application error kind,
not the execution-failure kind) and launches no child process. -/
theorem pristineTar_construct_config_error (access : String → Bool)
    (h : access pristineTarCmd = false) :
    (pristineTarInit access).1 =
      .error (.gbpError (pristineTarCmd ++ " not found - cannot use pristine-tar")) ∧
    (pristineTarInit access).2 = [] ∧
    (∀ p, (pristineTarInit access).1 ≠ .error (.commandExecFailed p)) := by
  refine ⟨?_, ?_, ?_⟩ <;> simp [pristineTarInit, h]

/-- Witness for C8: with no path executable, construction yields the
configuration error and an empty launch record. -/
theorem pristineTar_construct_config_error_witness :
    (pristineTarInit (fun _ => false)).1 =
      .error (.gbpError (pristineTarCmd ++ " not found - cannot use pristine-tar")) ∧
    (pristineTarInit (fun _ => false)).2 = [] :=
  ⟨(pristineTar_construct_config_error (fun _ => false) rfl).1,
   (pristineTar_construct_config_error (fun _ => false) rfl).2.1⟩

/-- Claim C10: with signing disabled the configured key id is ignored — no
signing option is emitted and the dispatched vector does not depend on
the key id; with signing enabled, `-u <keyid>` is emitted exactly when a
key id is set (truthy) and `-s` exactly when none is. -/
theorem gitTag_keyid_ignored_unless_signing (keyid k2 : Option String)
    (version msg : String) (commit : Option String) :
    gitTagSignOpts false keyid = [] ∧
    gitTagArgv false keyid version msg commit =
      gitTagArgv false k2 version msg commit ∧
    gitTagArgv false keyid version msg commit =
      ["git", "tag", "-m", renderTagMsg msg version, version] ++
        (if optStrTruthy commit then [commit.getD ""] else []) ∧
    (optStrTruthy keyid = true → gitTagSignOpts true keyid = ["-u", keyid.getD ""]) ∧
    (optStrTruthy keyid = false → gitTagSignOpts true keyid = ["-s"]) := by
  refine ⟨rfl, ?_, ?_, ?_, ?_⟩
  · rfl
  · cases hc : optStrTruthy commit <;>
      simp [gitTagArgv, gitTagSignOpts, hc]
  · intro h; simp [gitTagSignOpts, h]
  · intro h; simp [gitTagSignOpts, h]

/-- Witness for C10: a set key id yields `-u <keyid>` under signing, no
key id yields `-s`, and under disabled signing the options are empty. -/
theorem gitTag_keyid_ignored_unless_signing_witness :
    gitTagSignOpts true (some "0xDEAD") = ["-u", (some "0xDEAD").getD ""] ∧
    gitTagSignOpts true none = ["-s"] ∧
    gitTagSignOpts false (some "0xDEAD") = [] :=
  ⟨(gitTag_keyid_ignored_unless_signing (some "0xDEAD") none "1.0" "m" none).2.2.2.1
      (by decide),
   (gitTag_keyid_ignored_unless_signing none none "1.0" "m" none).2.2.2.2
      (by decide),
   (gitTag_keyid_ignored_unless_signing (some "0xDEAD") none "1.0" "m" none).1⟩
